import Mathlib

/-!
Verification of the lazy external-tool acquisition and cleanup lifecycle
of the agent-flow-builder-x repository (the LazyResourceBinder pattern of
spec.md, implemented ad hoc in src/app.py, src/adk_agent_samples/github_agent/ss.py,
src/adk_agent_samples/github_agent/ssss.py, src/adk_agent_samples/github_agent/cli.py
and src/adk_agent_samples/mcp_agent/agent.py).

The embedding is shallow: the Python module globals that implement the binder
(the tool cache and the exit stack) become an explicit state record that every
operation threads; the external provider call (MCPToolset.from_server) becomes
a parameter of type Except describing the outcome the provider would produce
if it were invoked on this call; a raised Python exception becomes an Except.error
result, and every operation also reports whether it actually invoked the provider
(or the release callback), so that invocation counts can be stated.
-/

namespace AgentFlow

/-- An opaque tool handle as the provider returns it; the source only ever
inspects the `name` attribute (src/app.py line 116, ss.py line 172). -/
structure Tool where
  name : String
deriving DecidableEq, Repr

/-- The cleanup handle returned by MCPToolset.from_server: a
contextlib.AsyncExitStack.  Its aclose() unwinds the stack of registered
release callbacks; we model the stack as holding one pending release of the
MCP server connection, consumed by the first aclose().  A second aclose()
finds the stack already unwound, performs no release and cannot raise
(documented contextlib semantics, which the source relies on). -/
structure ExitStack where
  pending : Bool
deriving DecidableEq, Repr

/-- The binder state: the module-level globals named `_tools` and `_exit_stack`
in src/app.py lines 31-32 (and identically in ss.py lines 185-186 and
ssss.py lines 14-15).  `tools = none` means the Python value None; any
`some ts` (including `some []`) is a cached list. -/
structure BinderState where
  tools : Option (List Tool)
  exit_stack : Option ExitStack
deriving DecidableEq, Repr

/-- Errors raised by the external collaborators are opaque; only their
propagation matters. -/
abbrev Err := String

/-- The outcome the external provider (MCPToolset.from_server) would produce
if invoked on this call: either a tool list and a fresh cleanup handle, or a
raised exception. -/
abbrev ProviderResult := Except Err (List Tool × ExitStack)

/-- The binder state at module load time: both globals are None
(src/app.py lines 31-32). -/
def emptyBinder : BinderState := ⟨none, none⟩

/-- The agent-local tool list, `self.tools` of the LlmAgent subclasses;
created as the empty list (src/app.py line 172, ss.py line 263, ssss.py line 82). -/
structure AgentState where
  tools : List Tool
deriving DecidableEq, Repr

namespace App

/-- Embeds src/app.py lines 78-118, get_github_tools.  If the global `_tools`
is not None the cached list is returned immediately; otherwise the provider is
invoked.  On success both globals are assigned and the tools returned; a raised
exception propagates before either assignment, leaving the globals untouched.
The environment preparation before the provider call (npm prefix lookup,
env-var dictionary) does not read or write the binder state and is folded into
the provider invocation.  The third component records whether the provider was
invoked by this call. -/
def get_github_tools (fromServer : ProviderResult) (s : BinderState) :
    Except Err (List Tool) × BinderState × Bool :=
  match s.tools with
  | some ts => (.ok ts, s, false)
  | none =>
    match fromServer with
    | .error e => (.error e, s, true)
    | .ok (ts, es) => (.ok ts, ⟨some ts, some es⟩, true)

/-- Embeds src/app.py lines 129-139, GitHubAgent._ensure_tools_loaded.
If `self.tools` is falsy (empty) it calls get_github_tools inside try/except:
on success it assigns `self.tools` and returns True, on a raised exception it
logs and returns False.  Otherwise it returns True without side effects.
Result: (returned flag, agent state, binder state, provider invoked). -/
def ensure_tools_loaded (fromServer : ProviderResult) (a : AgentState)
    (s : BinderState) : Bool × AgentState × BinderState × Bool :=
  if a.tools.isEmpty then
    match get_github_tools fromServer s with
    | (.ok ts, s1, inv) => (true, ⟨ts⟩, s1, inv)
    | (.error _, s1, inv) => (false, a, s1, inv)
  else (true, a, s, false)

/-- Embeds src/app.py lines 213-219, cleanup.  If the global `_exit_stack` is
truthy, aclose() is awaited with no try/except, so a raised release failure
propagates to the caller; `_exit_stack` is never reset to None.  aclose() on a
still-pending stack consumes the registered release callback (so the stack is
unwound even when the callback raises) and yields the callback's outcome
`closeRes`; aclose() on an already-unwound stack does nothing.  The third
component counts release-callback invocations performed by this call. -/
def cleanup (closeRes : Except Err Unit) (s : BinderState) :
    Except Err Unit × BinderState × Nat :=
  match s.exit_stack with
  | none => (.ok (), s, 0)
  | some stk =>
    match stk.pending with
    | true => (closeRes, ⟨s.tools, some ⟨false⟩⟩, 1)
    | false => (.ok (), s, 0)

end App

namespace Ss

/-- Embeds src/adk_agent_samples/github_agent/ss.py lines 127-181,
get_tools_async: invokes the provider, then filters out the tool named
create_pull_request_review from the returned list (line 172) before returning
it together with the exit stack; a provider exception propagates. -/
def get_tools_async (fromServer : ProviderResult) :
    Except Err (List Tool × ExitStack) :=
  match fromServer with
  | .error e => .error e
  | .ok (ts, es) =>
      .ok (ts.filter (fun t => t.name != "create_pull_request_review"), es)

/-- Embeds src/adk_agent_samples/github_agent/ss.py lines 188-193,
get_github_tools: if the global `_tools` is None, both globals are assigned
from get_tools_async (an exception propagates before assignment); the cached
list is returned.  Third component: provider invoked by this call. -/
def get_github_tools (fromServer : ProviderResult) (s : BinderState) :
    Except Err (List Tool) × BinderState × Bool :=
  match s.tools with
  | some ts => (.ok ts, s, false)
  | none =>
    match get_tools_async fromServer with
    | .error e => (.error e, s, true)
    | .ok (ts, es) => (.ok ts, ⟨some ts, some es⟩, true)

/-- Embeds src/adk_agent_samples/github_agent/ss.py lines 205-229,
LazyLoadingLlmAgent._ensure_tools_loaded.  If `self.tools` is non-empty it
returns True at once.  Otherwise, inside try/except: when the global `_tools`
is None the provider is invoked through get_tools_async and both globals
assigned; then `self.tools` is set to the global `_tools` and True returned.
A raised exception is caught, logged and False returned, with agent and binder
state untouched.  (The os.environ assignment inside the try block does not
touch the binder state and is elided.)  Result: (flag, agent, binder,
provider invoked). -/
def ensure_tools_loaded (fromServer : ProviderResult) (a : AgentState)
    (s : BinderState) : Bool × AgentState × BinderState × Bool :=
  if a.tools.isEmpty then
    match s.tools with
    | some ts => (true, ⟨ts⟩, s, false)
    | none =>
      match get_tools_async fromServer with
      | .error _ => (false, a, s, true)
      | .ok (ts, es) => (true, ⟨ts⟩, ⟨some ts, some es⟩, true)
  else (true, a, s, false)

/-- Embeds src/adk_agent_samples/github_agent/ss.py lines 401-416,
cleanup_web_resources.  If the global `_exit_stack` is truthy, aclose() is
awaited inside try/except: a raised release failure is caught and printed and
never propagates; the function always completes normally. -/
def cleanup_web_resources (closeRes : Except Err Unit) (s : BinderState) :
    Except Err Unit × BinderState × Nat :=
  match s.exit_stack with
  | none => (.ok (), s, 0)
  | some stk =>
    match stk.pending with
    | true =>
        match closeRes with
        | .ok _ => (.ok (), ⟨s.tools, some ⟨false⟩⟩, 1)
        | .error _ => (.ok (), ⟨s.tools, some ⟨false⟩⟩, 1)
    | false => (.ok (), s, 0)

end Ss

namespace Ssss

/-- Embeds src/adk_agent_samples/github_agent/ssss.py lines 24-41,
get_tools_async: invokes the provider, then filters out the tool named
create_pull_request_review from the returned list (line 41) before returning
it together with the exit stack; a provider exception propagates. -/
def get_tools_async (fromServer : ProviderResult) :
    Except Err (List Tool × ExitStack) :=
  match fromServer with
  | .error e => .error e
  | .ok (ts, es) =>
      .ok (ts.filter (fun t => t.name != "create_pull_request_review"), es)

/-- Embeds src/adk_agent_samples/github_agent/ssss.py lines 51-56,
LazyLoadingLlmAgent._ensure_tools_loaded: if `self.tools` is falsy, the
provider is invoked through get_tools_async unconditionally (no None-check on
the global `_tools`) and with no try/except, so a raised exception propagates
and the tuple assignment leaves both globals and `self.tools` unassigned; on
success both globals and `self.tools` are assigned and True is returned.
Result: (the returned True or the propagated exception, agent state, binder
state, provider invoked). -/
def ensure_tools_loaded (fromServer : ProviderResult) (a : AgentState)
    (s : BinderState) : Except Err Bool × AgentState × BinderState × Bool :=
  if a.tools.isEmpty then
    match get_tools_async fromServer with
    | .error e => (.error e, a, s, true)
    | .ok (ts, es) => (.ok true, ⟨ts⟩, ⟨some ts, some es⟩, true)
  else (.ok true, a, s, false)

/-- Embeds src/adk_agent_samples/github_agent/ssss.py lines 98-101,
cleanup_web_resources: if the global `_exit_stack` is truthy, aclose() is
awaited with no try/except (a release failure would propagate);
`_exit_stack` is never reset to None. -/
def cleanup_web_resources (closeRes : Except Err Unit) (s : BinderState) :
    Except Err Unit × BinderState × Nat :=
  match s.exit_stack with
  | none => (.ok (), s, 0)
  | some stk =>
    match stk.pending with
    | true => (closeRes, ⟨s.tools, some ⟨false⟩⟩, 1)
    | false => (.ok (), s, 0)

end Ssss

namespace Cli

/-- Configuration failure raised by create_root_agent when the Google API key
is absent (src/adk_agent_samples/github_agent/cli.py lines 30-32). -/
inductive ConfigError where
  | missingGoogleApiKey
deriving DecidableEq, Repr

/-- The agent value create_root_agent builds on success: the MCP toolset is
constructed eagerly inside the agent's tool list, with the tool filter
given at cli.py lines 43-57. -/
structure DocAgent where
  toolset_created : Bool
  tool_filter : List String
deriving DecidableEq, Repr

/-- Embeds src/adk_agent_samples/github_agent/cli.py lines 23-59,
create_root_agent: reads GOOGLE_API_KEY from the environment and raises
ValueError before any MCP toolset is constructed when it is unset; otherwise
builds the agent, constructing the MCP toolset. -/
def create_root_agent (google_api_key : Option String) :
    Except ConfigError DocAgent :=
  match google_api_key with
  | none => .error .missingGoogleApiKey
  | some _ => .ok ⟨true, ["smithery"]⟩

end Cli

namespace McpAgent

/-- Outcome of the module-level configuration check and toolset setup of
src/adk_agent_samples/mcp_agent/agent.py. -/
structure ModuleInit where
  warned : Bool
  aborted : Bool
  acquisition_attempted : Bool
deriving DecidableEq, Repr

/-- Embeds src/adk_agent_samples/mcp_agent/agent.py lines 21-45: the
module-level check prints a warning when GOOGLE_API_KEY is not in the
environment but explicitly does not exit; use_mcp is then True
unconditionally, so the MCPToolset constructor is invoked regardless of
whether the key was present. -/
def module_init (google_api_key_set : Bool) : ModuleInit :=
  ⟨!google_api_key_set, false, true⟩

end McpAgent

/-- The binder invariant the code actually maintains: the cleanup handle is
present exactly when the tools cache is populated (assigned a list, possibly
empty) — both globals are always assigned together (app.py lines 111-112). -/
def cacheInvariant (s : BinderState) : Prop :=
  s.tools.isSome = s.exit_stack.isSome

end AgentFlow

open AgentFlow

/-- C1 (amended): if the tools cache is already populated, a further
get_github_tools call performs no provider acquisition and returns the cached
tools with the binder state unchanged (both in app.py and ss.py); and two
sequential calls from the empty state invoke the provider exactly once when
the first acquisition succeeds, the second call returning the cache. -/
theorem C1_idempotent :
    (∀ (p : ProviderResult) (s : BinderState) (ts : List Tool),
      s.tools = some ts →
      App.get_github_tools p s = (.ok ts, s, false) ∧
      Ss.get_github_tools p s = (.ok ts, s, false)) ∧
    (∀ (ts : List Tool) (es : ExitStack) (p2 : ProviderResult),
      (App.get_github_tools (.ok (ts, es)) emptyBinder).2.2 = true ∧
      App.get_github_tools p2
          (App.get_github_tools (.ok (ts, es)) emptyBinder).2.1 =
        (.ok ts, (App.get_github_tools (.ok (ts, es)) emptyBinder).2.1, false)) := by
  constructor
  · rintro p ⟨st, se⟩ ts h
    cases h
    exact ⟨rfl, rfl⟩
  · intro ts es p2
    exact ⟨rfl, rfl⟩

/-- C1 counterexample: the claim that two sequential ensure_loaded calls from
the empty state invoke the external provider at most once is false when the
first acquisition fails: with a provider that raises, both calls invoke the
provider (app.py lines 82-83 retry because the globals were never assigned). -/
theorem C1_counterexample :
    (App.get_github_tools (.error "down") emptyBinder).2.2 = true ∧
    (App.get_github_tools (.error "down")
        (App.get_github_tools (.error "down") emptyBinder).2.1).2.2 = true :=
  ⟨rfl, rfl⟩

/-- C1 witness: the cached-state half of C1_idempotent evaluated at a
populated binder. -/
theorem C1_witness :
    App.get_github_tools (.error "down") ⟨some [⟨"toolA"⟩], some ⟨true⟩⟩ =
      (.ok [⟨"toolA"⟩], ⟨some [⟨"toolA"⟩], some ⟨true⟩⟩, false) :=
  (C1_idempotent.1 (.error "down") ⟨some [⟨"toolA"⟩], some ⟨true⟩⟩
    [⟨"toolA"⟩] rfl).1

/-- C2: when acquisition raises inside get_github_tools, the exception
propagates, the binder state is unchanged (tools cache and cleanup handle
remain None), and a subsequent call invokes the provider again — the failure
does not poison the state (app.py and ss.py variants). -/
theorem C2_failure_atomic :
    ∀ (e : Err) (p2 : ProviderResult) (s : BinderState),
      s = emptyBinder →
      App.get_github_tools (.error e) s = (.error e, s, true) ∧
      (App.get_github_tools p2 (App.get_github_tools (.error e) s).2.1).2.2
        = true ∧
      Ss.get_github_tools (.error e) s = (.error e, s, true) ∧
      (Ss.get_github_tools p2 (Ss.get_github_tools (.error e) s).2.1).2.2
        = true := by
  rintro e p2 s rfl
  refine ⟨rfl, ?_, rfl, ?_⟩ <;> cases p2 <;> rfl

/-- C2 witness: C2_failure_atomic evaluated at a failing provider from the
empty binder, with a succeeding retry. -/
theorem C2_witness :
    App.get_github_tools (.error "boom") emptyBinder
      = (.error "boom", emptyBinder, true) ∧
    (App.get_github_tools (.ok ([⟨"toolA"⟩], ⟨true⟩))
        (App.get_github_tools (.error "boom") emptyBinder).2.1).2.2 = true ∧
    Ss.get_github_tools (.error "boom") emptyBinder
      = (.error "boom", emptyBinder, true) ∧
    (Ss.get_github_tools (.ok ([⟨"toolA"⟩], ⟨true⟩))
        (Ss.get_github_tools (.error "boom") emptyBinder).2.1).2.2 = true :=
  C2_failure_atomic "boom" (.ok ([⟨"toolA"⟩], ⟨true⟩)) emptyBinder rfl

/-- C3 (amended): a failure while releasing the handle inside ss.py's
cleanup_web_resources is caught and logged and never propagates — the call
always completes normally, for every binder state and every release outcome.
(app.py's cleanup has no handler and propagates the failure; see the
counterexample.) -/
theorem C3_release_failure_caught :
    ∀ (c : Except Err Unit) (s : BinderState),
      (Ss.cleanup_web_resources c s).1 = .ok () := by
  rintro c ⟨st, se⟩
  cases se with
  | none => rfl
  | some stk =>
    obtain ⟨pend⟩ := stk
    cases pend with
    | false => rfl
    | true => cases c <;> rfl

/-- C3 counterexample: app.py's cleanup (lines 213-219) awaits aclose() with
no try/except, so a raised release failure propagates out of the teardown
call, contrary to the claim that teardown never raises. -/
theorem C3_counterexample :
    (App.cleanup (.error "close failed")
        ⟨some [⟨"toolA"⟩], some ⟨true⟩⟩).1 = .error "close failed" :=
  rfl

/-- C4: teardown with the cleanup handle absent (ensure_loaded never called,
or every call failed) is a no-op in all three variants: nothing is released,
nothing raises, the state is unchanged. -/
theorem C4_teardown_noop :
    ∀ (c : Except Err Unit) (s : BinderState),
      s.exit_stack = none →
      App.cleanup c s = (.ok (), s, 0) ∧
      Ss.cleanup_web_resources c s = (.ok (), s, 0) ∧
      Ssss.cleanup_web_resources c s = (.ok (), s, 0) := by
  rintro c ⟨st, se⟩ h
  cases h
  exact ⟨rfl, rfl, rfl⟩

/-- C4 witness: C4_teardown_noop evaluated at the initial module state with a
failing release outcome (which is never consulted). -/
theorem C4_witness :
    App.cleanup (.error "boom") emptyBinder = (.ok (), emptyBinder, 0) ∧
    Ss.cleanup_web_resources (.error "boom") emptyBinder
      = (.ok (), emptyBinder, 0) ∧
    Ssss.cleanup_web_resources (.error "boom") emptyBinder
      = (.ok (), emptyBinder, 0) :=
  C4_teardown_noop (.error "boom") emptyBinder rfl

/-- C5: on a loaded binder (tools cached, handle pending) two sequential
app.py cleanup calls release the handle exactly once: the first call performs
the single release (unwinding the exit stack), and the second call performs
no release, does not raise, and leaves the state unchanged. -/
theorem C5_release_once :
    ∀ (ts : List Tool) (c1 c2 : Except Err Unit),
      (App.cleanup c1 ⟨some ts, some ⟨true⟩⟩).2.2 = 1 ∧
      (App.cleanup c1 ⟨some ts, some ⟨true⟩⟩).2.1
        = ⟨some ts, some ⟨false⟩⟩ ∧
      App.cleanup c2 (App.cleanup c1 ⟨some ts, some ⟨true⟩⟩).2.1
        = (.ok (), (App.cleanup c1 ⟨some ts, some ⟨true⟩⟩).2.1, 0) := by
  intro ts c1 c2
  exact ⟨rfl, rfl, rfl⟩

/-- C6: whenever _ensure_tools_loaded actually invoked the provider and the
provider raised, the call returns False (a distinguishable failure result,
never a success report), and both the agent tool list and the binder state are
left unchanged (EMPTY), so the caller can decide to degrade or abort — in both
the app.py and ss.py variants. -/
theorem C6_failure_surfaced :
    ∀ (e : Err) (a : AgentState) (s : BinderState),
      ((App.ensure_tools_loaded (.error e) a s).2.2.2 = true →
        App.ensure_tools_loaded (.error e) a s = (false, a, s, true)) ∧
      ((Ss.ensure_tools_loaded (.error e) a s).2.2.2 = true →
        Ss.ensure_tools_loaded (.error e) a s = (false, a, s, true)) := by
  rintro e ⟨ats⟩ ⟨st, se⟩
  constructor
  · intro h
    cases ats with
    | cons t ts => exact Bool.noConfusion h
    | nil =>
      cases st with
      | some ts => exact Bool.noConfusion h
      | none => rfl
  · intro h
    cases ats with
    | cons t ts => exact Bool.noConfusion h
    | nil =>
      cases st with
      | some ts => exact Bool.noConfusion h
      | none => rfl

/-- C6 witness: C6_failure_surfaced evaluated from the empty agent and binder
state with a failing provider. -/
theorem C6_witness :
    App.ensure_tools_loaded (.error "boom") ⟨[]⟩ emptyBinder
      = (false, ⟨[]⟩, emptyBinder, true) ∧
    Ss.ensure_tools_loaded (.error "boom") ⟨[]⟩ emptyBinder
      = (false, ⟨[]⟩, emptyBinder, true) :=
  ⟨(C6_failure_surfaced "boom" ⟨[]⟩ emptyBinder).1 rfl,
   (C6_failure_surfaced "boom" ⟨[]⟩ emptyBinder).2 rfl⟩

/-- C7 counterexample: the provider can succeed with an empty tool list, after
which the cleanup handle is present while the tools sequence is empty —
refuting both the claimed iff-invariant (handle present iff tools non-empty)
and the claim that every successful acquisition leaves tools non-empty. -/
theorem C7_counterexample :
    ((App.get_github_tools (.ok ([], ⟨true⟩))
        emptyBinder).2.1.exit_stack).isSome = true ∧
    (App.get_github_tools (.ok ([], ⟨true⟩)) emptyBinder).2.1.tools
      = some [] :=
  ⟨rfl, rfl⟩

/-- C7 (amended): the invariant the code maintains is that the cleanup handle
is present exactly when the tools cache is populated (assigned, possibly an
empty list).  It is preserved by app.py's get_github_tools (success or
failure), by app.py's cleanup, by app.py's _ensure_tools_loaded, and by
ssss.py's _ensure_tools_loaded (success or propagated failure); and after
every acquisition that actually invoked the provider and succeeded, the cache
holds the returned list and the handle is present — but the list may be
empty. -/
theorem C7_cache_handle_invariant :
    ∀ (p : ProviderResult) (c : Except Err Unit) (a : AgentState)
      (s : BinderState),
      cacheInvariant s →
      cacheInvariant (App.get_github_tools p s).2.1 ∧
      cacheInvariant (App.cleanup c s).2.1 ∧
      cacheInvariant (App.ensure_tools_loaded p a s).2.2.1 ∧
      cacheInvariant (Ssss.ensure_tools_loaded p a s).2.2.1 ∧
      (∀ ts : List Tool, (App.get_github_tools p s).1 = .ok ts →
        (App.get_github_tools p s).2.2 = true →
        (App.get_github_tools p s).2.1.tools = some ts ∧
        (App.get_github_tools p s).2.1.exit_stack.isSome = true) := by
  rintro p c ⟨ats⟩ ⟨st, se⟩ hinv
  cases st with
  | some ts0 =>
    cases se with
    | none => exact Bool.noConfusion hinv
    | some stk =>
      obtain ⟨pend⟩ := stk
      refine ⟨rfl, ?_, ?_, ?_, ?_⟩
      · cases pend <;> rfl
      · cases ats with
        | nil => rfl
        | cons t ts => rfl
      · cases ats with
        | cons t ts => rfl
        | nil =>
          cases p with
          | error e => rfl
          | ok pr =>
            obtain ⟨ts1, es1⟩ := pr
            rfl
      · intro ts hok hcall
        exact Bool.noConfusion hcall
  | none =>
    cases se with
    | some stk => exact Bool.noConfusion hinv
    | none =>
      refine ⟨?_, rfl, ?_, ?_, ?_⟩
      · cases p with
        | error e => rfl
        | ok pr => rfl
      · cases ats with
        | cons t ts => rfl
        | nil =>
          cases p with
          | error e => rfl
          | ok pr => rfl
      · cases ats with
        | cons t ts => rfl
        | nil =>
          cases p with
          | error e => rfl
          | ok pr =>
            obtain ⟨ts1, es1⟩ := pr
            rfl
      · intro ts hok hcall
        cases p with
        | error e => exact Except.noConfusion hok
        | ok pr =>
          obtain ⟨ts1, es1⟩ := pr
          replace hok : (Except.ok ts1 : Except Err (List Tool))
              = Except.ok ts := hok
          injection hok with h
          subst h
          exact ⟨rfl, rfl⟩

/-- C7 witness: C7_cache_handle_invariant evaluated from the empty binder with
a provider returning one tool: the invariant holds after both acquisition
paths, the cache holds the returned list, and the handle is present. -/
theorem C7_witness :
    cacheInvariant emptyBinder ∧
    cacheInvariant
      (App.get_github_tools (.ok ([⟨"toolA"⟩], ⟨true⟩)) emptyBinder).2.1 ∧
    cacheInvariant
      (Ssss.ensure_tools_loaded (.ok ([⟨"toolA"⟩], ⟨true⟩)) ⟨[]⟩
        emptyBinder).2.2.1 ∧
    (App.get_github_tools (.ok ([⟨"toolA"⟩], ⟨true⟩)) emptyBinder).2.1.tools
      = some [⟨"toolA"⟩] ∧
    (App.get_github_tools (.ok ([⟨"toolA"⟩], ⟨true⟩))
        emptyBinder).2.1.exit_stack.isSome = true :=
  ⟨rfl,
   (C7_cache_handle_invariant (.ok ([⟨"toolA"⟩], ⟨true⟩)) (.ok ()) ⟨[]⟩
      emptyBinder rfl).1,
   (C7_cache_handle_invariant (.ok ([⟨"toolA"⟩], ⟨true⟩)) (.ok ()) ⟨[]⟩
      emptyBinder rfl).2.2.2.1,
   ((C7_cache_handle_invariant (.ok ([⟨"toolA"⟩], ⟨true⟩)) (.ok ()) ⟨[]⟩
      emptyBinder rfl).2.2.2.2 [⟨"toolA"⟩] rfl rfl).1,
   ((C7_cache_handle_invariant (.ok ([⟨"toolA"⟩], ⟨true⟩)) (.ok ()) ⟨[]⟩
      emptyBinder rfl).2.2.2.2 [⟨"toolA"⟩] rfl rfl).2⟩

/-- C8 counterexample: in mcp_agent/agent.py a run with GOOGLE_API_KEY absent
does not fail fast: the module-level check only prints a warning, does not
abort, and the MCPToolset acquisition is still attempted. -/
theorem C8_counterexample :
    (McpAgent.module_init false).warned = true ∧
    (McpAgent.module_init false).aborted = false ∧
    (McpAgent.module_init false).acquisition_attempted = true :=
  ⟨rfl, rfl, rfl⟩

/-- C8 (amended): cli.py's create_root_agent fails fast — a missing
GOOGLE_API_KEY raises a ValueError before the MCP toolset is constructed,
while with the key present the agent and its toolset are built; but
mcp_agent/agent.py only warns on a missing key and attempts acquisition
anyway, so fail-fast does not hold for every call site. -/
theorem C8_config_fail_fast :
    Cli.create_root_agent none = .error .missingGoogleApiKey ∧
    (∀ k : String,
      Cli.create_root_agent (some k) = .ok ⟨true, ["smithery"]⟩) ∧
    McpAgent.module_init false = ⟨true, false, true⟩ ∧
    McpAgent.module_init true = ⟨false, false, true⟩ :=
  ⟨rfl, fun _ => rfl, rfl, rfl⟩

/-- C9: the loaded check is cache-is-not-None, not tools-non-empty: if the
provider succeeds with an empty tool list (app.py), or the
create_pull_request_review filter removes every returned tool (ss.py), the
binder records itself as loaded, and every subsequent call returns the cached
empty sequence without invoking the provider again. -/
theorem C9_empty_load_cached :
    ∀ (es : ExitStack) (p2 : ProviderResult),
      (App.get_github_tools (.ok ([], es)) emptyBinder).2.1.tools
        = some [] ∧
      App.get_github_tools p2
          (App.get_github_tools (.ok ([], es)) emptyBinder).2.1
        = (.ok [], (App.get_github_tools (.ok ([], es)) emptyBinder).2.1,
            false) ∧
      (Ss.get_github_tools (.ok ([⟨"create_pull_request_review"⟩], es))
          emptyBinder).2.1.tools = some [] ∧
      Ss.get_github_tools p2
          (Ss.get_github_tools (.ok ([⟨"create_pull_request_review"⟩], es))
            emptyBinder).2.1
        = (.ok [],
            (Ss.get_github_tools (.ok ([⟨"create_pull_request_review"⟩], es))
              emptyBinder).2.1, false) := by
  intro es p2
  exact ⟨rfl, rfl, rfl, rfl⟩

/-- C10: teardown touches only the cleanup handle — app.py's cleanup leaves
the tools cache unchanged for every state and close outcome — so after a
teardown of a loaded binder, a further get_github_tools call returns the
previously cached (now-released) tool handles with no new acquisition. -/
theorem C10_teardown_frame :
    ∀ (c : Except Err Unit) (s : BinderState),
      (App.cleanup c s).2.1.tools = s.tools ∧
      (∀ (ts : List Tool) (p : ProviderResult), s.tools = some ts →
        App.get_github_tools p (App.cleanup c s).2.1
          = (.ok ts, (App.cleanup c s).2.1, false)) := by
  rintro c ⟨st, se⟩
  constructor
  · cases se with
    | none => rfl
    | some stk =>
      obtain ⟨pend⟩ := stk
      cases pend <;> rfl
  · rintro ts p h
    cases h
    cases se with
    | none => rfl
    | some stk =>
      obtain ⟨pend⟩ := stk
      cases pend <;> rfl

/-- C10 witness: C10_teardown_frame evaluated on a loaded binder: the cache
survives the teardown and the next call returns it without acquisition. -/
theorem C10_witness :
    (App.cleanup (.ok ()) ⟨some [⟨"toolA"⟩], some ⟨true⟩⟩).2.1.tools
      = some [⟨"toolA"⟩] ∧
    App.get_github_tools (.error "down")
        (App.cleanup (.ok ()) ⟨some [⟨"toolA"⟩], some ⟨true⟩⟩).2.1
      = (.ok [⟨"toolA"⟩],
          (App.cleanup (.ok ()) ⟨some [⟨"toolA"⟩], some ⟨true⟩⟩).2.1,
          false) :=
  ⟨(C10_teardown_frame (.ok ()) ⟨some [⟨"toolA"⟩], some ⟨true⟩⟩).1,
   (C10_teardown_frame (.ok ()) ⟨some [⟨"toolA"⟩], some ⟨true⟩⟩).2
     [⟨"toolA"⟩] (.error "down") rfl⟩
